import Mathlib

/-!
Shallow embedding of the completion-detection subsystem of the zellij-mcp-server
repository (src/tools/detection.ts, together with the generic validators in
src/utils/validator.ts), and theorems settling the frozen claims about it.

The JavaScript code is translated function-by-function: pure string processing
becomes Lean functions, the process-wide `watchers`/`processes` maps become an
explicit `DetectionState` record threaded through the operations, promise
resolution becomes an explicit `Option`-valued resolution field, and thrown
`ValidationError`s become an error constructor in each operation's outcome type.
-/

namespace ZellijMCP

/-! ## JavaScript string primitives used by the source -/

/-- ASCII whitespace recognised by JavaScript `String.prototype.trim` and the
regex class `\s` (the source only ever handles ASCII input here). -/
def isJsWhitespace (c : Char) : Bool :=
  c = ' ' || c = '\t' || c = '\n' || c = '\r' || c = Char.ofNat 11 || c = Char.ofNat 12

/-- JavaScript `String.prototype.trim`. -/
def jsTrim (s : String) : String :=
  ⟨((s.data.dropWhile isJsWhitespace).reverse.dropWhile isJsWhitespace).reverse⟩

/-- Does `p` hold of some suffix of the list (i.e. at some scan position)? -/
def anyPosition (p : List Char → Bool) : List Char → Bool
  | [] => p []
  | c :: rest => p (c :: rest) || anyPosition p rest

/-- JavaScript `String.prototype.includes`: substring containment. -/
def strIncludes (s pat : String) : Bool :=
  anyPosition (fun t => pat.data.isPrefixOf t) s.data

/-- Helper for `splitWhitespace`: split a character list on whitespace runs,
accumulating the current word in reverse. -/
def wordsAux : List Char → List Char → List String
  | [], acc => if acc.isEmpty then [] else [⟨acc.reverse⟩]
  | c :: rest, acc =>
    if isJsWhitespace c then
      if acc.isEmpty then wordsAux rest [] else ⟨acc.reverse⟩ :: wordsAux rest []
    else wordsAux rest (c :: acc)

/-- `s.trim().split(/\s+/)` as used by `pollProcess` on the `ps` output. -/
def splitWhitespace (s : String) : List String :=
  wordsAux (jsTrim s).data []

/-- Decimal digit value. -/
def digitVal (c : Char) : Nat := c.toNat - 48

/-- Hexadecimal digit recogniser for `parseInt`'s `0x` form. -/
def isHexDigit (c : Char) : Bool :=
  c.isDigit || (decide ('a' ≤ c) && decide (c ≤ 'f')) || (decide ('A' ≤ c) && decide (c ≤ 'F'))

/-- Hexadecimal digit value. -/
def hexVal (c : Char) : Nat :=
  if c.isDigit then c.toNat - 48
  else if decide ('a' ≤ c) && decide (c ≤ 'f') then c.toNat - 87
  else c.toNat - 55

/-- Greedy digit-prefix parse: `none` when no leading digit (JS `NaN`). -/
def parseDigits (base : Nat) (isD : Char → Bool) (val : Char → Nat) (l : List Char) : Option Nat :=
  let ds := l.takeWhile isD
  if ds.isEmpty then none
  else some (ds.foldl (fun a c => a * base + val c) 0)

/-- JavaScript `parseInt(s)` (radix argument omitted): skip leading whitespace,
optional sign, automatic hexadecimal on a `0x`/`0X` head, then the longest
digit prefix; `none` models `NaN`. -/
def parseIntJs (s : String) : Option Int :=
  let l := s.data.dropWhile isJsWhitespace
  let signAndRest : Int × List Char :=
    match l with
    | '-' :: rest => (-1, rest)
    | '+' :: rest => (1, rest)
    | _ => (1, l)
  match signAndRest.2 with
  | '0' :: 'x' :: rest => (parseDigits 16 isHexDigit hexVal rest).map (fun n => signAndRest.1 * n)
  | '0' :: 'X' :: rest => (parseDigits 16 isHexDigit hexVal rest).map (fun n => signAndRest.1 * n)
  | _ => (parseDigits 10 Char.isDigit digitVal signAndRest.2).map (fun n => signAndRest.1 * n)

/-! ## Validator (src/utils/validator.ts) -/

/-- `ValidationResult` from src/types/zellij.ts (the `sanitized` field is
always the trimmed input string for the validators embedded here). -/
structure ValidationResult where
  valid : Bool
  errors : List String
  sanitized : Option String
deriving DecidableEq, Repr

/-- `Validator.validateString`: the generic string validator checks only that
the value is a non-empty string, at most `maxLength` characters, and not
whitespace-only; `sanitized` is the trimmed value. -/
def validateString (value : String) (fieldName : String) (maxLength : Nat) : ValidationResult :=
  if value = "" then
    { valid := false
      errors := [fieldName ++ " is required and must be a string"]
      sanitized := some (jsTrim value) }
  else
    let errors :=
      (if value.length > maxLength then
        [fieldName ++ " is too long (max " ++ toString maxLength ++ " characters)"] else []) ++
      (if (jsTrim value).length = 0 then [fieldName ++ " cannot be empty"] else [])
    { valid := errors.isEmpty, errors := errors, sanitized := some (jsTrim value) }

/-- The character class `[;&|`$(){}[\]]` of `Validator.validateCommand`'s first
dangerous pattern (command separators and expansions). -/
def dangerousChar (c : Char) : Bool :=
  c = ';' || c = '&' || c = '|' || c = Char.ofNat 96 || c = '$' || c = '(' || c = ')' ||
  c = Char.ofNat 123 || c = Char.ofNat 125 || c = '[' || c = ']'

/-- Match of the regex `rm\s+-rf` at the head of the list. -/
def matchRmRfAt (l : List Char) : Bool :=
  match l with
  | 'r' :: 'm' :: c :: rest =>
    isJsWhitespace c &&
      (match rest.dropWhile isJsWhitespace with
       | '-' :: 'r' :: 'f' :: _ => true
       | _ => false)
  | _ => false

/-- A character the JS regex `.` matches (anything but a line terminator). -/
def notLineTerm (c : Char) : Bool :=
  !(c = '\n' || c = '\r' || c = Char.ofNat 8232 || c = Char.ofNat 8233)

/-- Match `.*` followed by a position where `stop` matches. -/
def dotStarThen (stop : List Char → Bool) : List Char → Bool
  | [] => stop []
  | c :: rest => stop (c :: rest) || (notLineTerm c && dotStarThen stop rest)

/-- Match of `cmd.*\|.*sh` (for `cmd` ∈ {curl, wget}) at the head of the list. -/
def matchCmdPipeShAt (cmdLit : List Char) (l : List Char) : Bool :=
  cmdLit.isPrefixOf l &&
    dotStarThen (fun t =>
      match t with
      | '|' :: u => dotStarThen (fun v => ['s', 'h'].isPrefixOf v) u
      | _ => false) (l.drop cmdLit.length)

/-- `Validator.validateCommand`: rejects commands containing shell
metacharacters, `..`, `rm -rf`, `sudo`, curl/wget piped to a shell, or longer
than 1000 characters; `sanitized` is the trimmed command. -/
def validateCommand (command : String) : ValidationResult :=
  if command = "" then
    { valid := false
      errors := ["Command is required and must be a string"]
      sanitized := some (jsTrim command) }
  else
    let l := command.data
    let errors :=
      (if l.any dangerousChar then
        ["Command contains potentially dangerous pattern: separators and expansions"] else []) ++
      (if strIncludes command ".." then
        ["Command contains potentially dangerous pattern: directory traversal"] else []) ++
      (if anyPosition matchRmRfAt l then
        ["Command contains potentially dangerous pattern: rm -rf"] else []) ++
      (if strIncludes command "sudo" then
        ["Command contains potentially dangerous pattern: sudo"] else []) ++
      (if anyPosition (matchCmdPipeShAt ['c', 'u', 'r', 'l']) l then
        ["Command contains potentially dangerous pattern: curl pipe to shell"] else []) ++
      (if anyPosition (matchCmdPipeShAt ['w', 'g', 'e', 't']) l then
        ["Command contains potentially dangerous pattern: wget pipe to shell"] else []) ++
      (if command.length > 1000 then ["Command is too long (max 1000 characters)"] else [])
    { valid := errors.isEmpty, errors := errors, sanitized := some (jsTrim command) }

/-! ## Watch target path validation (detection.ts)

`watchPipe`, `watchFile` and `pipeWithTimeout` validate their target path with
`!path || path.includes('..') || !path.match(/^[/\w\-\.]+$/)`. -/

/-- JS regex `\w`. -/
def isWordChar (c : Char) : Bool := c.isAlphanum || c = '_'

/-- The character class `[/\w\-\.]` of the watch-path regex: the conservative
safe-character set for watch targets. -/
def isSafePathChar (c : Char) : Bool := isWordChar c || c = '/' || c = '-' || c = '.'

/-- Watch-target path validation shared by `watchPipe`, `watchFile` and
`pipeWithTimeout`: non-empty, no `..`, all characters in the safe set. -/
def validWatchPath (p : String) : Bool :=
  p ≠ "" && !(strIncludes p "..") && p.data.all isSafePathChar

/-! ## DetectionTools state (detection.ts)

`DetectionTools` holds two process-wide maps: `watchers : Map<string, any>`
(keyed by the watched path, the value is just `true`) and
`processes : Map<string, ChildProcess>` (keyed by a generated process id).
Both are modelled by their key lists, with `Map.set`/`Map.delete` semantics. -/

/-- A thrown `ValidationError` (or a promise rejection carrying one). -/
structure VErr where
  message : String
deriving DecidableEq, Repr

/-- The process-wide registry: keys of `DetectionTools.watchers` and
`DetectionTools.processes`. -/
structure DetectionState where
  watchers : List String
  processes : List String
deriving DecidableEq, Repr

/-- `Map.set` on the key list: idempotent insert. -/
def mapSet (m : List String) (k : String) : List String :=
  if k ∈ m then m else m ++ [k]

/-- `Map.delete` on the key list (no-op when absent). -/
def mapDelete (m : List String) (k : String) : List String :=
  m.erase k

/-! ## Pattern validation and the buffer scan -/

/-- The pattern-validation loop shared by `watchPipe` and `watchFile`: each
pattern goes through `validateString(pattern, 'pattern', 256)`; the first
invalid one throws, otherwise the sanitized (trimmed) pattern is kept. -/
def validatePatternList : List String → Except VErr (List String)
  | [] => .ok []
  | p :: rest =>
    let v := validateString p "pattern" 256
    if v.valid then
      match validatePatternList rest with
      | .ok vs => .ok (jsTrim p :: vs)
      | .error e => .error e
    else
      .error ⟨"Invalid pattern: " ++ String.intercalate ", " v.errors⟩

/-- The scan loop of both watchers: iterate the validated patterns in request
order and return the first whose text occurs anywhere in the buffer
(`for (const pattern of validatedPatterns) if (buffer.includes(pattern)) ...`). -/
def scanPatterns (patterns : List String) (buffer : String) : Option String :=
  patterns.find? (fun p => strIncludes buffer p)

/-! ## watchFile (detection.ts lines 683-776)

The start segment of `DetectionTools.watchFile`: validation, arming the
deadline timer, the immediate `checkFile()` probe, then installing
`fs.watchFile` and registering the path in `this.watchers`. The filesystem is
modelled by `file : Option String` — `none` when `existsSync` is false (or the
read throws), `some content` otherwise. -/

/-- Terminal outcome of a file watch. -/
inductive FileOutcome
  | patternFound (pattern : String)
  | fileDetected
  | timedOut
deriving DecidableEq, Repr

/-- `checkFile()`: nothing happens when the file is absent; with patterns the
buffer (the whole freshly-read content) is scanned; with no patterns mere
existence resolves the watch. -/
def checkFileResult (patterns : List String) (file : Option String) : Option FileOutcome :=
  match file with
  | none => none
  | some content =>
    if patterns.length > 0 then
      (scanPatterns patterns content).map FileOutcome.patternFound
    else
      some FileOutcome.fileDetected

/-- What `watchFile` has done by the time it returns control: either a
validation error thrown before the promise executor ran (no timer, no stream,
no registry entry), or a started watch. `resolvedNow` is the outcome delivered
by the immediate check (if any); `osWatcherInstalled` records whether the
`fs.watchFile` stat-watcher is installed; `timerArmed` whether the deadline
timer is still pending. -/
inductive FileStartOutcome
  | validationError (e : VErr)
  | started (resolvedNow : Option FileOutcome) (osWatcherInstalled : Bool) (timerArmed : Bool)
deriving DecidableEq, Repr

/-- The start segment of `DetectionTools.watchFile`. Faithful ordering from the
source: path check, timeout bounds, pattern validation, then inside the
promise executor: arm the timer, run `checkFile()` once (whose `cleanup()` on
resolution clears the timer and deletes/unwatches the path only if it is
already in the map), and finally — unconditionally — install `fs.watchFile`
and `this.watchers.set(filePath, true)`. -/
def watchFileStart (st : DetectionState) (filePath : String) (patterns : Option (List String))
    (timeoutMs : Int) (file : Option String) : DetectionState × FileStartOutcome :=
  if !validWatchPath filePath then
    (st, .validationError ⟨"Invalid file path"⟩)
  else if timeoutMs < 100 ∨ timeoutMs > 300000 then
    (st, .validationError ⟨"Timeout must be between 100ms and 300000ms (5 minutes)"⟩)
  else
    match validatePatternList (patterns.getD []) with
    | .error e => (st, .validationError e)
    | .ok validatedPatterns =>
      let r := checkFileResult validatedPatterns file
      let watchers1 := if r.isSome then mapDelete st.watchers filePath else st.watchers
      ({ st with watchers := mapSet watchers1 filePath },
       .started r true r.isNone)

/-- An in-flight file watch, as seen by its pending promise: the resolution
slot, its deadline timer, and its `fs.watchFile` stat-watcher. -/
structure PendingFileWatch where
  path : String
  patterns : List String
  resolved : Option FileOutcome
  timerArmed : Bool
  osWatcher : Bool
deriving DecidableEq, Repr

/-- The deadline timer firing: `cleanup()` (clear timer; unwatch and delete
the path if registered) then `resolve(timeout)`. Promise resolution is
single-assignment: a second `resolve` is a no-op. -/
def fileTimerFire (st : DetectionState) (w : PendingFileWatch) :
    DetectionState × PendingFileWatch :=
  if w.timerArmed then
    let registered := w.path ∈ st.watchers
    (⟨mapDelete st.watchers w.path, st.processes⟩,
     { w with
        timerArmed := false
        osWatcher := w.osWatcher && !registered
        resolved := if w.resolved.isSome then w.resolved else some .timedOut })
  else (st, w)

/-! ## watchPipe (detection.ts lines 411-513) -/

/-- Terminal resolution of a pipe watch. -/
inductive PipeResolution
  | patternFound (pattern : String)
  | eofReached (hadMatch : Bool)
  | errored (message : String)
  | timedOut
deriving DecidableEq, Repr

/-- The mutable closure state of a pipe watch: the accumulation buffer and the
`found` flag. -/
structure PipeWatchState where
  buffer : String
  found : Bool
deriving DecidableEq, Repr

/-- A stream event observed by the pipe watch. -/
inductive PipeEvent
  | data (chunk : String)
  | streamEnd
  | streamError (message : String)
deriving DecidableEq, Repr

/-- The event handlers of `watchPipe`'s read stream. On `data` the chunk is
appended to the buffer and — only when the validated pattern list is
non-empty — the buffer is scanned in request order; on `end` the watch
resolves as EOF; on `error` it rejects. With an empty pattern list a `data`
chunk never resolves the watch. -/
def pipeWatchStep (patterns : List String) (s : PipeWatchState) :
    PipeEvent → PipeWatchState × Option PipeResolution
  | .data chunk =>
    let buffer := s.buffer ++ chunk
    if patterns.length > 0 then
      match scanPatterns patterns buffer with
      | some p => ({ buffer := buffer, found := true }, some (.patternFound p))
      | none => ({ s with buffer := buffer }, none)
    else
      ({ s with buffer := buffer }, none)
  | .streamEnd => (s, some (.eofReached s.found))
  | .streamError msg => (s, some (.errored msg))

/-- What `watchPipe` has done by the time it returns control. -/
inductive PipeStartOutcome
  | validationError (e : VErr)
  | rejected (e : VErr)
  | watching (validatedPatterns : List String) (timerArmed : Bool) (streamOpen : Bool)
deriving DecidableEq, Repr

/-- The start segment of `DetectionTools.watchPipe`: path check, timeout
bounds, pattern validation; then inside the promise executor the timer is
armed and `existsSync` is consulted — a missing pipe runs `cleanup()` (clear
timer; unwatch/delete the path if some entry for it is registered) and rejects;
otherwise a read stream is opened. `watchPipe` itself never registers the pipe
path in `this.watchers`. -/
def watchPipeStart (st : DetectionState) (pipePath : String) (patterns : Option (List String))
    (timeoutMs : Int) (pipeExists : Bool) : DetectionState × PipeStartOutcome :=
  if !validWatchPath pipePath then
    (st, .validationError ⟨"Invalid pipe path"⟩)
  else if timeoutMs < 100 ∨ timeoutMs > 300000 then
    (st, .validationError ⟨"Timeout must be between 100ms and 300000ms (5 minutes)"⟩)
  else
    match validatePatternList (patterns.getD []) with
    | .error e => (st, .validationError e)
    | .ok validatedPatterns =>
      if !pipeExists then
        (⟨mapDelete st.watchers pipePath, st.processes⟩,
         .rejected ⟨"Pipe does not exist: " ++ pipePath⟩)
      else
        (st, .watching validatedPatterns true true)

/-! ## pipeWithTimeout (detection.ts lines 549-632) -/

/-- What `pipeWithTimeout` has done by the time it returns control: a
validation error thrown before anything was spawned, or a spawned shell
command registered under `processId` in `this.processes`. -/
inductive PipeTimeoutStartOutcome
  | validationError (e : VErr)
  | spawned (shellCommand : String)
deriving DecidableEq, Repr

/-- The start segment of `DetectionTools.pipeWithTimeout`: command validation,
target-pipe path check, timeout bounds (1s to 10 minutes), then
`spawn('bash', ['-c', `cmd > "targetPipe"`])` registered in `processes`. -/
def pipeWithTimeoutStart (st : DetectionState) (command targetPipe : String)
    (timeoutMs : Int) (processId : String) : DetectionState × PipeTimeoutStartOutcome :=
  let cv := validateCommand command
  if !cv.valid then
    (st, .validationError ⟨"Invalid command: " ++ String.intercalate ", " cv.errors⟩)
  else if !validWatchPath targetPipe then
    (st, .validationError ⟨"Invalid target pipe path"⟩)
  else if timeoutMs < 1000 ∨ timeoutMs > 600000 then
    (st, .validationError ⟨"Timeout must be between 1000ms and 600000ms (10 minutes)"⟩)
  else
    (⟨st.watchers, mapSet st.processes processId⟩,
     .spawned (jsTrim command ++ " > \"" ++ targetPipe ++ "\""))

/-! ## pollProcess (detection.ts lines 637-678) -/

/-- The `pid` argument of `pollProcess` is `string | number`. -/
inductive PidInput
  | str (s : String)
  | num (n : Int)
deriving DecidableEq, Repr

/-- Result of the single `ps -p <pid> -o pid,ppid,state,comm --no-headers`
probe: `execAsync` either yields stdout or throws (nonzero exit). -/
inductive ProbeResult
  | ok (stdout : String)
  | fail (message : String)
deriving DecidableEq, Repr

/-- Outcome of `pollProcess`, all returned normally: an alive process report,
the "not found or has exited" branch (empty `ps` output), or the catch branch
("not found or error checking status"): `ps` failing on a dead pid. -/
inductive PollOutcome
  | alive (pid ppid procState comm : String)
  | notFound
  | notFoundError (message : String)
deriving DecidableEq, Repr

/-- `DetectionTools.pollProcess`: `parseInt` on a string pid, validation of the
pid range (positive, at most 4194304) and the interval (100..10000 ms), then
one probe. The probe is a parameter so that the theorem can quantify over what
the operating system reports; invalid inputs are rejected with a thrown
`ValidationError` without consulting it. -/
def pollProcess (pid : PidInput) (intervalMs : Int) (probe : Int → ProbeResult) :
    Except VErr PollOutcome :=
  let pidNum? : Option Int :=
    match pid with
    | .str s => parseIntJs s
    | .num n => some n
  match pidNum? with
  | none => .error ⟨"Invalid PID: must be a positive integer"⟩
  | some pidNum =>
    if pidNum ≤ 0 ∨ pidNum > 4194304 then
      .error ⟨"Invalid PID: must be a positive integer"⟩
    else if intervalMs < 100 ∨ intervalMs > 10000 then
      .error ⟨"Interval must be between 100ms and 10000ms"⟩
    else
      match probe pidNum with
      | .fail msg => .ok (.notFoundError msg)
      | .ok out =>
        if jsTrim out ≠ "" then
          let fields := splitWhitespace out
          .ok (.alive (fields.getD 0 "undefined") (fields.getD 1 "undefined")
                (fields.getD 2 "undefined") (fields.getD 3 "undefined"))
        else
          .ok .notFound

/-! ## createNamedPipe (detection.ts lines 518-544) -/

/-- The mode regex `^0[0-7]{3}$`. -/
def modeOctalOk (mode : String) : Bool :=
  match mode.data with
  | '0' :: a :: b :: c :: [] =>
    (decide ('0' ≤ a) && decide (a ≤ '7')) && (decide ('0' ≤ b) && decide (b ≤ '7')) &&
      (decide ('0' ≤ c) && decide (c ≤ '7'))
  | _ => false

/-- What `createNamedPipe` does: a validation error, or the exact shell command
string handed to `execAsync`. -/
inductive NamedPipeOutcome
  | validationError (e : VErr)
  | command (shellCommand : String)
deriving DecidableEq, Repr

/-- `DetectionTools.createNamedPipe`: the pipe name goes through
`validateString(pipeName, 'pipe name', 64)` only; the mode must match the
octal regex; then the sanitized (trimmed) name is interpolated into
`mkfifo -m <mode> "/tmp/zellij-pipe-<name>"`. -/
def createNamedPipe (pipeName : String) (mode : String) : NamedPipeOutcome :=
  let nv := validateString pipeName "pipe name" 64
  if !nv.valid then
    .validationError ⟨"Invalid pipe name: " ++ String.intercalate ", " nv.errors⟩
  else if !modeOctalOk mode then
    .validationError ⟨"Mode must be in octal format (e.g., \"0666\")"⟩
  else
    .command ("mkfifo -m " ++ mode ++ " \"/tmp/zellij-pipe-" ++ jsTrim pipeName ++ "\"")

/-! ## createLLMWrapper (detection.ts lines 781-897) and the generated
wrapper script's status-artifact state machine

The generator validates its inputs and writes a bash script. What matters to
the claims is the sequence of writes the script performs on its status
artifact, read off the script template (detection.ts lines 808-872):

* start: `echo "running" > "$STATUS_FILE"` (whole-content replacement) followed
  by an appended timestamped log line;
* wrapped command exits 0: the subshell appends nothing; after `wait` the main
  body runs `echo "complete:0" > "$STATUS_FILE"` (replacement) plus an
  appended log line;
* wrapped command times out (exit code 124 from `timeout(1)`): the subshell
  runs `echo "timeout" >> "$STATUS_FILE"` — an APPEND, not a replacement —
  plus an appended log line, then exits 124; since the script runs under
  `set -euo pipefail`, `wait "$LLM_PID"` returning 124 aborts the script
  before any later status write;
* wrapped command fails with a nonzero code other than 124: the subshell
  appends `error:<code>` plus a log line and exits with that code, aborting
  the main body the same way. -/

/-- A single write to the status artifact. -/
inductive FsWrite
  | overwrite (line : String)
  | append (line : String)
deriving DecidableEq, Repr

/-- Effect of one write on the file, viewed as its list of lines. -/
def applyWrite (file : List String) : FsWrite → List String
  | .overwrite l => [l]
  | .append l => file ++ [l]

/-- Replay a sequence of writes on an initially empty status artifact. -/
def runWrites (ws : List FsWrite) : List String :=
  ws.foldl applyWrite []

/-- The canonical status value: the first line of the artifact. -/
def canonicalStatus (file : List String) : Option String :=
  file.head?

/-- Execution path of the wrapped command. -/
inductive WrapperRun
  | success
  | failure (code : Nat)
  | timedOut
deriving DecidableEq, Repr

/-- The status-artifact writes performed by the generated wrapper script along
each execution path (`ts1`, `ts2` stand for the timestamped log lines). -/
def wrapperStatusWrites (ts1 ts2 : String) : WrapperRun → List FsWrite
  | .success =>
    [.overwrite "running", .append ts1, .overwrite "complete:0", .append ts2]
  | .failure code =>
    [.overwrite "running", .append ts1, .append ("error:" ++ toString code), .append ts2]
  | .timedOut =>
    [.overwrite "running", .append ts1, .append "timeout", .append ts2]

/-- Artifact paths and conventions returned by the generator. -/
structure WrapperArtifacts where
  wrapperPath : String
  statusPath : String
  marker : String
deriving DecidableEq, Repr

/-- The validation-and-paths part of `DetectionTools.createLLMWrapper`:
wrapper name (max 32), LLM command (`validateCommand`), marker (max 64); the
artifacts live under `/tmp/llm-wrapper-<name>.sh` and `/tmp/llm-status-<name>`. -/
def createLLMWrapper (wrapperName llmCommand detectMarker : String) :
    Except VErr WrapperArtifacts :=
  let nv := validateString wrapperName "wrapper name" 32
  if !nv.valid then
    .error ⟨"Invalid wrapper name: " ++ String.intercalate ", " nv.errors⟩
  else
    let cv := validateCommand llmCommand
    if !cv.valid then
      .error ⟨"Invalid LLM command: " ++ String.intercalate ", " cv.errors⟩
    else
      let mv := validateString detectMarker "detection marker" 64
      if !mv.valid then
        .error ⟨"Invalid marker: " ++ String.intercalate ", " mv.errors⟩
      else
        .ok ⟨"/tmp/llm-wrapper-" ++ jsTrim wrapperName ++ ".sh",
             "/tmp/llm-status-" ++ jsTrim wrapperName,
             jsTrim detectMarker⟩

/-! ## cleanupDetection (detection.ts lines 902-936) -/

/-- `DetectionTools.cleanupDetection`, the registry sweep: for every registered
path it calls `fs.unwatchFile(path)` (counting it), kills and counts every
tracked child process, clears both maps, and deletes aged temporary files. It
never calls `resolve` or `reject` of any pending watch promise, so the
resolution slot of an in-flight watch is untouched; the watch's stat-watcher
is detached exactly when its path was registered. The function returns the
swept registry, the in-flight watch as the sweep leaves it, and the `cleaned`
counter it reports. -/
def cleanupDetection (st : DetectionState) (pending : PendingFileWatch) :
    DetectionState × PendingFileWatch × Nat :=
  let cleaned := st.watchers.length + st.processes.length
  let pending' :=
    { pending with osWatcher := pending.osWatcher && !(pending.path ∈ st.watchers : Bool) }
  (⟨[], []⟩, pending', cleaned)

/-! ## Theorems -/

/-- Splitting lemma for `List.find?`: a found element is the first one
satisfying the predicate, in list order. -/
theorem find?_eq_some_split {α : Type} (p : α → Bool) :
    ∀ (l : List α) (b : α), l.find? p = some b →
      ∃ l₁ l₂, l = l₁ ++ b :: l₂ ∧ (∀ a ∈ l₁, p a = false) ∧ p b = true := by
  intro l
  induction l with
  | nil => intro b h; simp [List.find?] at h
  | cons a rest ih =>
    intro b h
    by_cases ha : p a = true
    · rw [List.find?_cons_of_pos _ ha] at h
      cases h
      exact ⟨[], rest, rfl, by simp, ha⟩
    · have ha' : p a = false := by simpa using ha
      rw [List.find?_cons_of_neg _ (by simp [ha'])] at h
      obtain ⟨l₁, l₂, hsplit, hall, hb⟩ := ih b h
      refine ⟨a :: l₁, l₂, by rw [hsplit]; rfl, ?_, hb⟩
      intro x hx
      rcases List.mem_cons.mp hx with hx | hx
      · exact hx ▸ ha'
      · exact hall x hx

/-- Claim C3: the pattern reported as matched by the watcher scan is the first
pattern in request-list order that occurs anywhere in the buffer — when
several requested patterns are present in the content, all patterns before the
reported one do not occur at all, so the earliest in the request list wins
regardless of position in the buffer; and whenever any requested pattern
occurs, the scan does report a match. -/
theorem scanPatterns_first_in_request_order :
    (∀ (patterns : List String) (buffer q : String),
        scanPatterns patterns buffer = some q →
        ∃ l₁ l₂, patterns = l₁ ++ q :: l₂ ∧
          (∀ r ∈ l₁, strIncludes buffer r = false) ∧ strIncludes buffer q = true) ∧
    (∀ (patterns : List String) (buffer p : String),
        p ∈ patterns → strIncludes buffer p = true →
        (scanPatterns patterns buffer).isSome = true) := by
  constructor
  · intro ps buffer q h
    exact find?_eq_some_split _ ps q h
  · intro ps buffer p hp hocc
    rw [scanPatterns, List.find?_isSome]
    exact ⟨p, hp, hocc⟩

/-- Witness for C3 at the spec's own example: with request list
`["error:", "complete:"]` and a buffer containing only `complete:0`, the
reported pattern is `complete:` and everything before it in the request list
is absent from the buffer. -/
theorem scanPatterns_first_in_request_order_witness :
    ∃ l₁ l₂, (["error:", "complete:"] : List String) = l₁ ++ "complete:" :: l₂ ∧
      (∀ r ∈ l₁, strIncludes "xx complete:0 yy" r = false) ∧
      strIncludes "xx complete:0 yy" "complete:" = true :=
  scanPatterns_first_in_request_order.1 ["error:", "complete:"] "xx complete:0 yy" "complete:"
    (by decide)

/-- Claim C7: a watch request whose timeout is below 100 ms or above 300000 ms
is rejected with a thrown validation error with the registry untouched (the
rejection happens before the promise executor runs, so no stream is opened, no
timer armed, no entry registered); for `pipeWithTimeout` the bounds are
1000 ms to 600000 ms and the rejection happens before the command is spawned. -/
theorem timeout_bounds_rejected_before_resources :
    (∀ (st : DetectionState) (path : String) (ps : Option (List String)) (t : Int)
        (file : Option String), t < 100 ∨ t > 300000 →
        (watchFileStart st path ps t file).1 = st ∧
        ∃ e, (watchFileStart st path ps t file).2 = FileStartOutcome.validationError e) ∧
    (∀ (st : DetectionState) (path : String) (ps : Option (List String)) (t : Int)
        (ex : Bool), t < 100 ∨ t > 300000 →
        (watchPipeStart st path ps t ex).1 = st ∧
        ∃ e, (watchPipeStart st path ps t ex).2 = PipeStartOutcome.validationError e) ∧
    (∀ (st : DetectionState) (cmd tgt : String) (t : Int) (procId : String),
        t < 1000 ∨ t > 600000 →
        (pipeWithTimeoutStart st cmd tgt t procId).1 = st ∧
        ∃ e, (pipeWithTimeoutStart st cmd tgt t procId).2
            = PipeTimeoutStartOutcome.validationError e) := by
  refine ⟨?_, ?_, ?_⟩
  · intro st path ps t file ht
    by_cases hp : validWatchPath path
    · exact ⟨by simp [watchFileStart, hp, ht],
        ⟨"Timeout must be between 100ms and 300000ms (5 minutes)"⟩,
        by simp [watchFileStart, hp, ht]⟩
    · exact ⟨by simp [watchFileStart, hp], ⟨"Invalid file path"⟩, by simp [watchFileStart, hp]⟩
  · intro st path ps t ex ht
    by_cases hp : validWatchPath path
    · exact ⟨by simp [watchPipeStart, hp, ht],
        ⟨"Timeout must be between 100ms and 300000ms (5 minutes)"⟩,
        by simp [watchPipeStart, hp, ht]⟩
    · exact ⟨by simp [watchPipeStart, hp], ⟨"Invalid pipe path"⟩, by simp [watchPipeStart, hp]⟩
  · intro st cmd tgt t procId ht
    by_cases hc : (validateCommand cmd).valid
    · by_cases hp : validWatchPath tgt
      · exact ⟨by simp [pipeWithTimeoutStart, hc, hp, ht],
          ⟨"Timeout must be between 1000ms and 600000ms (10 minutes)"⟩,
          by simp [pipeWithTimeoutStart, hc, hp, ht]⟩
      · exact ⟨by simp [pipeWithTimeoutStart, hc, hp], ⟨"Invalid target pipe path"⟩,
          by simp [pipeWithTimeoutStart, hc, hp]⟩
    · exact ⟨by simp [pipeWithTimeoutStart, hc],
        ⟨"Invalid command: " ++ String.intercalate ", " (validateCommand cmd).errors⟩,
        by simp [pipeWithTimeoutStart, hc]⟩

/-- Witness for C7: a 50 ms file watch, a 50 ms pipe watch and a 700000 ms
piped command are all rejected with the registry left untouched. -/
theorem timeout_bounds_rejected_before_resources_witness :
    ((watchFileStart ⟨[], []⟩ "/tmp/f" none 50 none).1 = ⟨[], []⟩ ∧
      ∃ e, (watchFileStart ⟨[], []⟩ "/tmp/f" none 50 none).2
          = FileStartOutcome.validationError e) ∧
    ((watchPipeStart ⟨[], []⟩ "/tmp/f" none 50 true).1 = ⟨[], []⟩ ∧
      ∃ e, (watchPipeStart ⟨[], []⟩ "/tmp/f" none 50 true).2
          = PipeStartOutcome.validationError e) ∧
    ((pipeWithTimeoutStart ⟨[], []⟩ "ls" "/tmp/f" 700000 "pipe-1").1 = ⟨[], []⟩ ∧
      ∃ e, (pipeWithTimeoutStart ⟨[], []⟩ "ls" "/tmp/f" 700000 "pipe-1").2
          = PipeTimeoutStartOutcome.validationError e) :=
  ⟨timeout_bounds_rejected_before_resources.1 ⟨[], []⟩ "/tmp/f" none 50 none (by decide),
   timeout_bounds_rejected_before_resources.2.1 ⟨[], []⟩ "/tmp/f" none 50 true (by decide),
   timeout_bounds_rejected_before_resources.2.2 ⟨[], []⟩ "ls" "/tmp/f" 700000 "pipe-1"
     (by decide)⟩

/-- Evaluation of `pollProcess` once both the pid and the interval pass
validation: the result is read off the probe and always returned normally. -/
theorem pollProcess_num_eval (n i : Int) (probe : Int → ProbeResult)
    (h1 : 0 < n) (h2 : n ≤ 4194304) (h3 : 100 ≤ i) (h4 : i ≤ 10000) :
    pollProcess (.num n) i probe =
      match probe n with
      | .fail msg => .ok (.notFoundError msg)
      | .ok out =>
        if jsTrim out ≠ "" then
          .ok (.alive ((splitWhitespace out).getD 0 "undefined")
            ((splitWhitespace out).getD 1 "undefined")
            ((splitWhitespace out).getD 2 "undefined")
            ((splitWhitespace out).getD 3 "undefined"))
        else .ok .notFound := by
  have hn : ¬(n ≤ 0 ∨ n > 4194304) := by omega
  have hi : ¬(i < 100 ∨ i > 10000) := by omega
  simp only [pollProcess]
  rw [if_neg hn, if_neg hi]

/-- Claim C8: a non-positive or out-of-range pid is rejected with a thrown
validation error whatever the probe would have answered (so before any probe
is made); a valid pid with a valid interval always returns normally, and when
the probe reports nothing running (`ps` fails, or prints nothing) the result
is the NotFound-style outcome, returned normally — and a thrown error and a
normal return are distinct outcomes. -/
theorem pollProcess_validation_and_notFound :
    (∀ (n i : Int) (probe : Int → ProbeResult), n ≤ 0 ∨ n > 4194304 →
        pollProcess (.num n) i probe
          = .error ⟨"Invalid PID: must be a positive integer"⟩) ∧
    (∀ (n i : Int) (probe : Int → ProbeResult),
        0 < n → n ≤ 4194304 → 100 ≤ i → i ≤ 10000 →
        (∃ o, pollProcess (.num n) i probe = .ok o) ∧
        (∀ msg, probe n = .fail msg →
          pollProcess (.num n) i probe = .ok (.notFoundError msg)) ∧
        (∀ out, probe n = .ok out → jsTrim out = "" →
          pollProcess (.num n) i probe = .ok .notFound)) ∧
    (∀ (e : VErr) (o : PollOutcome), (Except.error e : Except VErr PollOutcome) ≠ .ok o) := by
  refine ⟨?_, ?_, ?_⟩
  · intro n i probe h
    simp only [pollProcess]
    rw [if_pos h]
  · intro n i probe h1 h2 h3 h4
    have heval := pollProcess_num_eval n i probe h1 h2 h3 h4
    refine ⟨?_, ?_, ?_⟩
    · rw [heval]
      cases hpr : probe n with
      | fail msg => exact ⟨_, rfl⟩
      | ok out =>
        by_cases ho : jsTrim out ≠ ""
        · exact ⟨_, by dsimp only; rw [if_pos ho]⟩
        · exact ⟨_, by dsimp only; rw [if_neg ho]⟩
    · intro msg hpr
      rw [heval, hpr]
    · intro out hpr hout
      rw [heval, hpr]
      simp [hout]
  · intro e o h
    cases h

/-- Witness for C8: pid 5000000 is rejected before probing; pid 3 with a
failing `ps` probe, and pid 3 with an empty `ps` output, both return the
NotFound-style outcome normally. -/
theorem pollProcess_validation_and_notFound_witness :
    pollProcess (.num 5000000) 1000 (fun _ => .ok "x")
        = .error ⟨"Invalid PID: must be a positive integer"⟩ ∧
    pollProcess (.num 3) 1000 (fun _ => .fail "ps exited 1")
        = .ok (.notFoundError "ps exited 1") ∧
    pollProcess (.num 3) 1000 (fun _ => .ok "") = .ok .notFound :=
  ⟨pollProcess_validation_and_notFound.1 5000000 1000 (fun _ => .ok "x") (by decide),
   (pollProcess_validation_and_notFound.2.1 3 1000 (fun _ => .fail "ps exited 1")
      (by decide) (by decide) (by decide) (by decide)).2.1 "ps exited 1" rfl,
   (pollProcess_validation_and_notFound.2.1 3 1000 (fun _ => .ok "")
      (by decide) (by decide) (by decide) (by decide)).2.2 "" rfl (by decide)⟩

/-- Claim C9: the pipe-name validation of `createNamedPipe` checks exactly
non-emptiness and the 64-character bound (plus not being whitespace-only) —
nothing about the characters themselves; consequently a name containing a
space, a double quote, `$`, and parentheses (all outside the conservative
safe-character set required of watch paths) passes validation and is
interpolated verbatim into the `mkfifo` shell command. -/
theorem createNamedPipe_unsafe_name_interpolation :
    (∀ s : String, (validateString s "pipe name" 64).valid =
        (!(s == "") && !(decide (s.length > 64)) && !((jsTrim s).length == 0))) ∧
    (validateString "my pipe$(x)\"" "pipe name" 64).valid = true ∧
    ("my pipe$(x)\"" : String).data.all isSafePathChar = false ∧
    createNamedPipe "my pipe$(x)\"" "0666"
      = .command "mkfifo -m 0666 \"/tmp/zellij-pipe-my pipe$(x)\"\"" := by
  refine ⟨?_, by decide, by decide, by decide⟩
  intro s
  by_cases h1 : s = ""
  · subst h1; decide
  · by_cases h2 : s.length > 64
    · simp [validateString, h1, h2]
    · by_cases h3 : (jsTrim s).length = 0 <;> simp [validateString, h1, h2, h3]

/-- Claim C10: a string pid is parsed with JavaScript `parseInt`'s
numeric-prefix semantics — `"123abc"` passes validation and the query is
performed for process 123, identically to passing the number 123. -/
theorem pollProcess_string_pid_numeric_prefix :
    parseIntJs "123abc" = some 123 ∧
    (∀ (i : Int) (probe : Int → ProbeResult),
        pollProcess (.str "123abc") i probe = pollProcess (.num 123) i probe) ∧
    pollProcess (.str "123abc") 1000 (fun _ => .ok "") = .ok .notFound := by
  refine ⟨by decide, ?_, by rfl⟩
  intro i probe
  rfl

/-- Claim C1 (code bug in `watchFile`): when the target file already satisfies
a requested pattern, the immediate `checkFile()` resolves the watch — but the
code then goes on to install the `fs.watchFile` stat-watcher and to register
the path in the process-wide watchers map, so after the outcome is delivered a
registry entry and an installed OS-level watcher remain (`started ... true`
with the path in `watchers`), violating the leak-freedom contract for the
immediate-check case. -/
theorem watchFile_immediate_resolution_leaks :
    watchFileStart ⟨[], []⟩ "/tmp/llm-status-w" (some ["complete:"]) 30000 (some "complete:0")
      = (⟨["/tmp/llm-status-w"], []⟩,
         .started (some (.patternFound "complete:")) true false) ∧
    "/tmp/llm-status-w" ∈ (watchFileStart ⟨[], []⟩ "/tmp/llm-status-w" (some ["complete:"])
        30000 (some "complete:0")).1.watchers := by
  exact ⟨by decide, by decide⟩

/-- Counterexample to claim C2: with one in-flight watch registered, the sweep
clears the registry and detaches the stat-watcher, but the watch's resolution
slot is still empty afterwards — no `Errored{Cancelled}` (indeed no outcome at
all) is delivered to the waiting caller, whose deadline timer is still armed. -/
theorem cleanupDetection_no_cancellation_delivered_cex :
    (cleanupDetection ⟨["/tmp/f"], []⟩ ⟨"/tmp/f", ["DONE"], none, true, true⟩).2.1.resolved
        = none ∧
    (cleanupDetection ⟨["/tmp/f"], []⟩ ⟨"/tmp/f", ["DONE"], none, true, true⟩).2.1.timerArmed
        = true ∧
    (cleanupDetection ⟨["/tmp/f"], []⟩ ⟨"/tmp/f", ["DONE"], none, true, true⟩).1 = ⟨[], []⟩ := by
  exact ⟨rfl, rfl, rfl⟩

/-- Claim C2 as amended: the sweep empties the registry, reports one cleaned
resource per registered watcher and tracked process, and delivers nothing to
an in-flight caller — the caller's resolution slot is exactly as before the
sweep, and the watch only resolves `TimedOut` later, when its own (still
armed) deadline timer fires. -/
theorem cleanupDetection_clears_registry_without_delivery :
    ∀ (st : DetectionState) (w : PendingFileWatch),
      (cleanupDetection st w).1 = ⟨[], []⟩ ∧
      (cleanupDetection st w).2.2 = st.watchers.length + st.processes.length ∧
      (cleanupDetection st w).2.1.resolved = w.resolved ∧
      (w.resolved = none → w.timerArmed = true →
        (fileTimerFire (cleanupDetection st w).1 (cleanupDetection st w).2.1).2.resolved
          = some .timedOut) := by
  intro st w
  refine ⟨rfl, rfl, rfl, ?_⟩
  intro h1 h2
  simp [cleanupDetection, fileTimerFire, h1, h2]

/-- Witness for the amended C2: a registry with one watcher and one process is
swept to empty with two cleaned resources, nothing delivered, and the
caller's later timer firing resolves `TimedOut`. -/
theorem cleanupDetection_clears_registry_without_delivery_witness :
    (cleanupDetection ⟨["/tmp/g"], ["p1"]⟩ ⟨"/tmp/g", [], none, true, true⟩).1 = ⟨[], []⟩ ∧
    (cleanupDetection ⟨["/tmp/g"], ["p1"]⟩ ⟨"/tmp/g", [], none, true, true⟩).2.2 = 2 ∧
    (cleanupDetection ⟨["/tmp/g"], ["p1"]⟩ ⟨"/tmp/g", [], none, true, true⟩).2.1.resolved
        = none ∧
    (fileTimerFire (cleanupDetection ⟨["/tmp/g"], ["p1"]⟩ ⟨"/tmp/g", [], none, true, true⟩).1
        (cleanupDetection ⟨["/tmp/g"], ["p1"]⟩ ⟨"/tmp/g", [], none, true, true⟩).2.1).2.resolved
      = some .timedOut :=
  have h := cleanupDetection_clears_registry_without_delivery ⟨["/tmp/g"], ["p1"]⟩
    ⟨"/tmp/g", [], none, true, true⟩
  ⟨h.1, h.2.1, h.2.2.1, h.2.2.2 rfl rfl⟩

/-- Counterexample to claim C4: a pipe watch started with an empty pattern
list observes a data chunk and does not resolve — the chunk is appended to
the buffer and the watch keeps waiting. -/
theorem pipe_chunk_empty_patterns_no_resolution_cex :
    pipeWatchStep [] ⟨"", false⟩ (.data "hello") = (⟨"hello", false⟩, none) := by
  rfl

/-- Claim C4 as amended: with an empty pattern list, a file watch resolves on
any observed state in which the file exists, but a pipe watch never resolves
on a data chunk — only end-of-stream (or the deadline) resolves it. -/
theorem empty_patterns_resolution_behavior :
    (∀ (s : PipeWatchState) (chunk : String),
        (pipeWatchStep [] s (.data chunk)).2 = none) ∧
    (∀ s : PipeWatchState, (pipeWatchStep [] s .streamEnd).2 = some (.eofReached s.found)) ∧
    (∀ content : String, checkFileResult [] (some content) = some .fileDetected) := by
  exact ⟨fun s chunk => rfl, fun s => rfl, fun content => rfl⟩

/-- Counterexample to claim C5: `watchFile` on a target that does not exist at
start does not fail with a NotFound error — the watch starts normally, keeps
its timer armed, installs the stat-watcher and registers the path, waiting for
the file to appear (the immediate check resolves nothing). -/
theorem watchFile_missing_target_keeps_waiting_cex :
    watchFileStart ⟨[], []⟩ "/tmp/does-not-exist" (some ["complete:"]) 30000 none
      = (⟨["/tmp/does-not-exist"], []⟩, .started none true true) := by
  decide

/-- Claim C5 as amended: it is the pipe watch that rejects with a
does-not-exist error when its target is missing at open time; a file watch on
a missing target starts without error and keeps watching (timer armed,
stat-watcher installed) until the file appears or the deadline fires — though
it indeed never creates the file. -/
theorem missing_target_open_behavior :
    ∀ (st : DetectionState) (path : String) (ps : Option (List String)) (t : Int)
      (vps : List String),
      validWatchPath path = true → ¬(t < 100 ∨ t > 300000) →
      validatePatternList (ps.getD []) = .ok vps →
      (watchPipeStart st path ps t false).2
          = .rejected ⟨"Pipe does not exist: " ++ path⟩ ∧
      (watchFileStart st path ps t none).2 = .started none true true := by
  intro st path ps t vps hpath ht hps
  constructor
  · simp [watchPipeStart, hpath, ht, hps]
  · simp [watchFileStart, hpath, ht, hps, checkFileResult]

/-- Witness for the amended C5: a missing pipe at `/tmp/p2` is rejected while
a missing file at the same path starts an unresolved watch. -/
theorem missing_target_open_behavior_witness :
    (watchPipeStart ⟨[], []⟩ "/tmp/p2" (some ["DONE"]) 2000 false).2
        = .rejected ⟨"Pipe does not exist: /tmp/p2"⟩ ∧
    (watchFileStart ⟨[], []⟩ "/tmp/p2" (some ["DONE"]) 2000 none).2
        = .started none true true :=
  missing_target_open_behavior ⟨[], []⟩ "/tmp/p2" (some ["DONE"]) 2000 ["DONE"]
    (by decide) (by decide) (by rfl)

/-- Claim C6 (code bug in the generated wrapper script): every execution path
does start by overwriting the status artifact with `running`; but on
wrapper-level timeout the script APPENDS `timeout`
(`echo "timeout" >> "$STATUS_FILE"`) instead of replacing the content, so the
artifact reads `running`/log/`timeout`/log and its canonical (first-line)
value remains `running`, never becoming the exact string `timeout` — in
contrast to the success path, which overwrites the artifact to `complete:0`.
The generator accepts the failing input (a wrapper around a command that will
exceed its timeout). -/
theorem wrapper_timeout_status_appended :
    (∀ (ts1 ts2 : String) (r : WrapperRun),
        (wrapperStatusWrites ts1 ts2 r).head? = some (.overwrite "running")) ∧
    runWrites (wrapperStatusWrites "t1" "t2" .timedOut) = ["running", "t1", "timeout", "t2"] ∧
    canonicalStatus (runWrites (wrapperStatusWrites "t1" "t2" .timedOut)) = some "running" ∧
    canonicalStatus (runWrites (wrapperStatusWrites "t1" "t2" .success)) = some "complete:0" ∧
    createLLMWrapper "w" "sleep 120" "<<<LLM_COMPLETE>>>"
      = .ok ⟨"/tmp/llm-wrapper-w.sh", "/tmp/llm-status-w", "<<<LLM_COMPLETE>>>"⟩ := by
  refine ⟨?_, by rfl, by rfl, by rfl, by rfl⟩
  intro ts1 ts2 r
  cases r <;> rfl

end ZellijMCP
